import Mathlib

/-!
Verification development for the certificate-rotation orchestrator
(src/19_01_2026_certificate_rotation.py).

The Python script is shallowly embedded as pure Lean functions:

* network and subprocess collaborators (Vault HTTP calls, systemctl,
  kubectl) are modelled by explicit result parameters carried in a
  `TaskEnv` record; every call that would cross the collaborator
  boundary is additionally recorded in an `Effect` trace, so that
  dry-run/side-effect claims are statable;
* a Python exception that would propagate out of a collaborator call is
  modelled by the `Except.error` branch of the per-task issuance result
  (the only places in `rotate_certificate` where an exception can reach
  the outer handler are the `service["cert_path"]` key access and a
  non-RequestException raised by the live issuance call; the reload
  helpers each swallow all exceptions and return `false`);
* `datetime` values are modelled as integer seconds since the epoch in
  UTC, `datetime.fromisoformat` as an abstract parameter
  `String → Option Int` (`none` = `ValueError`), and `timedelta.days`
  as floor division by 86400, which matches Python's flooring of
  negative timedeltas;
* the `urllib3.util.retry.Retry` policy configured by
  `_create_session` (`total=3`, `backoff_factor=1`,
  `status_forcelist=[429, 500, 502, 503, 504]`) is embedded from the
  installed urllib3 1.26 sources: `get_backoff_time` returns 0 while
  the consecutive-error history has length at most 1 and otherwise
  `min(DEFAULT_BACKOFF_MAX, backoff_factor * 2 ^ (len - 1))`;
* the thread pool of `main` is embedded deterministically: outcomes are
  listed in submission order (the claims proved here are insensitive to
  the completion order of `as_completed`).

Python dict fields read with `.get` are `Option`-valued; `"unknown"`
and `"http"` defaults follow the source.  `namespace` is a Lean keyword,
so the ServiceSpec field is called `nspace`.
-/

set_option autoImplicit false

namespace CertRotation

/-- One entry of the services configuration list (a ServiceSpec).  Every
field is read in the source with `dict.get` except `cert_path`, which is
accessed as `service["cert_path"]` and therefore raises `KeyError` when
absent; it is still `Option`-valued here so that the `KeyError` path is
representable. -/
structure Service where
  name : Option String
  cert_path : Option String
  common_name : Option String
  reload_method : Option String
  reload_endpoint : Option String
  service_name : Option String
  nspace : Option String
  deployment : Option String
  deriving DecidableEq

/-- A side-effecting call crossing the collaborator boundary. -/
inductive Effect where
  | storeGet (cert_path : String)
  | storePost (cert_path : String)
  | httpPost (endpoint : Option String)
  | systemctlReload (service_name : Option String)
  | kubectlRollout (nspace : Option String) (deployment : Option String)
  deriving DecidableEq

/-- The per-service result dict built by `rotate_certificate`
(a RotationOutcome): `service`, `status` (one of the string literals
used by the source), optional `error`, and `duration` in (integer model)
seconds. -/
structure Outcome where
  service : String
  status : String
  error : Option String
  duration : Int
  deriving DecidableEq

/-- The `data` object of a Vault JSON response, as a list of key/value
pairs; the empty list models the falsy empty dict `{}`. -/
abbrev CertData := List (String × String)

/-- Python truthiness of an `Optional[Dict]`: `None` and `{}` are falsy. -/
def truthy : Option CertData → Bool
  | some (_ :: _) => true
  | _ => false

/-- Collaborator behaviour observed by one rotation task:
`issuanceLive` is the live result of the issuance POST
(`Except.error e` = an exception that `request_new_certificate` does not
catch, `Except.ok none` = a caught `RequestException`, `Except.ok (some d)`
= a 2xx response whose parsed `data` field is `d`); the three booleans
are the live success of the reload mechanisms; `t0`/`t1` are the two
`time.time()` readings. -/
structure TaskEnv where
  issuanceLive : Except String (Option CertData)
  httpOk : Bool
  sysOk : Bool
  k8sOk : Bool
  t0 : Int
  t1 : Int

/-- CertificateRotator.get_current_cert_info: one GET against the store;
never short-circuited by dry-run mode in the source.  `live` is the call
result (`none` = a caught `RequestException`). -/
def get_current_cert_info (cert_path : String) (live : Option CertData) :
    Option CertData × List Effect :=
  (live, [Effect.storeGet cert_path])

/-- CertificateRotator.request_new_certificate: in dry-run mode returns
the fake certificate dict without touching the session; in live mode the
POST crosses the boundary and yields `live`. -/
def request_new_certificate (dry_run : Bool) (cert_path : String)
    (live : Except String (Option CertData)) :
    Except String (Option CertData) × List Effect :=
  if dry_run then
    (Except.ok (some [("certificate", "fake_cert"), ("private_key", "fake_key")]), [])
  else
    (live, [Effect.storePost cert_path])

/-- CertificateRotator.days_until_expiry: normalise a trailing Z to
+00:00 (the suffix test and the slice `[:-1]` are expressed on the
character list of the string), parse, and return the floored day
difference; any parse failure (`fromisoformat` = `none`) is caught and
yields 0. -/
def days_until_expiry (fromisoformat : String → Option Int) (now : Int)
    (expiry_iso : String) : Int :=
  let normalized :=
    if expiry_iso.data.getLast? = some ('Z')
    then String.mk expiry_iso.data.dropLast ++ "+00:00"
    else expiry_iso
  match fromisoformat normalized with
  | some expiry => Int.fdiv (expiry - now) 86400
  | none => 0

/-- CertificateRotator._reload_via_http. -/
def reload_via_http (dry_run : Bool) (endpoint : Option String) (liveOk : Bool) :
    Bool × List Effect :=
  if dry_run then (true, []) else (liveOk, [Effect.httpPost endpoint])

/-- CertificateRotator._reload_via_systemd. -/
def reload_via_systemd (dry_run : Bool) (service_name : Option String) (liveOk : Bool) :
    Bool × List Effect :=
  if dry_run then (true, []) else (liveOk, [Effect.systemctlReload service_name])

/-- CertificateRotator._reload_via_kubernetes. -/
def reload_via_kubernetes (dry_run : Bool) (nspace deployment : Option String)
    (liveOk : Bool) : Bool × List Effect :=
  if dry_run then (true, []) else (liveOk, [Effect.kubectlRollout nspace deployment])

/-- CertificateRotator.reload_service: dispatch on
`service.get("reload_method", "http")`; an unrecognized value is logged
as an unknown-method error and returns `false` with no call made. -/
def reload_service (dry_run : Bool) (s : Service) (env : TaskEnv) :
    Bool × List Effect :=
  let reload_method := s.reload_method.getD ("http")
  if reload_method = "http" then
    reload_via_http dry_run s.reload_endpoint env.httpOk
  else if reload_method = "systemd" then
    reload_via_systemd dry_run s.service_name env.sysOk
  else if reload_method = "kubernetes" then
    reload_via_kubernetes dry_run s.nspace s.deployment env.k8sOk
  else
    (false, [])

/-- CertificateRotator.rotate_certificate: the per-service rotation
task.  `service["cert_path"]` raises `KeyError` when the key is absent;
that exception and any exception escaping the live issuance call are
caught by the outer handler and turned into a failed outcome carrying
the stringified error. -/
def rotate_certificate (dry_run : Bool) (s : Service) (env : TaskEnv) :
    Outcome × List Effect :=
  let service_name := s.name.getD ("unknown")
  let duration := env.t1 - env.t0
  match s.cert_path with
  | none =>
      ({ service := service_name, status := "failed",
         error := some ("KeyError: cert_path"), duration := duration }, [])
  | some cert_path =>
      let req := request_new_certificate dry_run cert_path env.issuanceLive
      match req.1 with
      | Except.error e =>
          ({ service := service_name, status := "failed",
             error := some e, duration := duration }, req.2)
      | Except.ok cert_data =>
          if truthy cert_data then
            let r := reload_service dry_run s env
            if r.1 then
              ({ service := service_name, status := "success",
                 error := none, duration := duration }, req.2 ++ r.2)
            else
              ({ service := service_name, status := "partial",
                 error := some ("Certificate rotated but service reload failed"),
                 duration := duration }, req.2 ++ r.2)
          else
            ({ service := service_name, status := "failed",
               error := some ("Failed to get new certificate"),
               duration := duration }, req.2)

/-- The hard-coded placeholder expiry used by `main` for every service
in a non-force pass. -/
def fake_expiry_date : String := "2026-02-15T00:00:00Z"

/-- The selection loop of `main`: with `--force` every service is
selected; otherwise a service is selected when
`days_until_expiry(fake_expiry_date) <= rotation_before_days`.  Note the
predicate does not depend on the service: no store read occurs here. -/
def select_services (force : Bool) (fromisoformat : String → Option Int)
    (now rotation_before_days : Int) (services : List Service) : List Service :=
  if force then services
  else
    services.filter
      (fun _ => days_until_expiry fromisoformat now fake_expiry_date ≤ rotation_before_days)

/-- The rotation pass of `main`: select, then rotate each selected
service.  This reference list enumerates the outcomes in submission
order; the real `as_completed` loop appends them in completion order,
i.e. it delivers some permutation of this list.  Order-sensitive facts
about this list are therefore not facts about the program: claims about
the collected results quantify over every permutation of it, and only
order-insensitive consequences (length, multiset of outcomes, the empty
pass) are read off directly. -/
def main_pass (force dry_run : Bool) (fromisoformat : String → Option Int)
    (now rotation_before_days : Int) (services : List Service)
    (env : Service → TaskEnv) : List Outcome :=
  (select_services force fromisoformat now rotation_before_days services).map
    (fun s => (rotate_certificate dry_run s (env s)).1)

/-- The issuance phase of `rotate_certificate`, as a predicate: the
cert_path key is present, the issuance call returns without raising,
and the returned payload is truthy.  `rotate_certificate` proceeds to the
reload phase exactly when this holds. -/
def issuance_succeeded (dry_run : Bool) (s : Service) (env : TaskEnv) : Bool :=
  match s.cert_path with
  | none => false
  | some p =>
      match (request_new_certificate dry_run p env.issuanceLive).1 with
      | Except.error _ => false
      | Except.ok cert_data => truthy cert_data

/-- One simulated transport event: a connection failure or a response
with the given HTTP status. -/
inductive SimResp where
  | conn
  | status (code : Nat)
  deriving DecidableEq

/-- urllib3 Retry.DEFAULT_BACKOFF_MAX. -/
def DEFAULT_BACKOFF_MAX : Nat := 120

/-- The status_forcelist configured by `_create_session`. -/
def status_forcelist : List Nat := [429, 500, 502, 503, 504]

/-- urllib3 Retry.get_backoff_time (v1.26): 0 while the consecutive
error history has length at most 1, else
`min(DEFAULT_BACKOFF_MAX, backoff_factor * 2 ^ (len - 1))`. -/
def get_backoff_time (backoff_factor : Nat) (consecutive_errors_len : Nat) : Nat :=
  if consecutive_errors_len ≤ 1 then 0
  else min DEFAULT_BACKOFF_MAX (backoff_factor * 2 ^ (consecutive_errors_len - 1))

/-- The aggregate of one simulated `send` through the retrying session:
how many retries were performed, the total backoff slept, and the final
status delivered (`none` = MaxRetryError after exhaustion, or the
simulation script ran out). -/
structure RetryResult where
  retries : Nat
  total_sleep : Nat
  result : Option Nat
  deriving DecidableEq

/-- Simulation of urllib3 retrying (as configured by `_create_session`):
each list element is consumed by one attempt; a connection failure or a
forcelisted status consumes one unit of the `total` budget (raising
MaxRetryError when the budget is exhausted), sleeps
`get_backoff_time` of the post-increment history length, and retries;
any other status is returned immediately. -/
def send_with_retries (backoff_factor : Nat) (forcelist : List Nat) :
    List SimResp → Nat → Nat → RetryResult
  | [], _, _ => { retries := 0, total_sleep := 0, result := none }
  | SimResp.conn :: rest, total, hist =>
      (match total with
       | 0 => { retries := 0, total_sleep := 0, result := none }
       | t + 1 =>
          let k := send_with_retries backoff_factor forcelist rest t (hist + 1)
          { retries := k.retries + 1,
            total_sleep := k.total_sleep + get_backoff_time backoff_factor (hist + 1),
            result := k.result })
  | SimResp.status code :: rest, total, hist =>
      if forcelist.contains code then
        (match total with
         | 0 => { retries := 0, total_sleep := 0, result := none }
         | t + 1 =>
            let k := send_with_retries backoff_factor forcelist rest t (hist + 1)
            { retries := k.retries + 1,
              total_sleep := k.total_sleep + get_backoff_time backoff_factor (hist + 1),
              result := k.result })
      else { retries := 0, total_sleep := 0, result := some code }

/-! Concrete fixtures used by counterexamples and witnesses. -/

/-- A service using the http reload method, as in the sample config. -/
def svcA : Service :=
  { name := some ("payments-api"), cert_path := some ("pki/issue/payments"),
    common_name := some ("payments.company.com"),
    reload_method := some ("http"),
    reload_endpoint := some ("http://payments.internal/reload"),
    service_name := none, nspace := none, deployment := none }

/-- A service using the systemd reload method. -/
def svcB : Service :=
  { name := some ("auth-service"), cert_path := some ("pki/issue/auth"),
    common_name := some ("auth.company.com"),
    reload_method := some ("systemd"), reload_endpoint := none,
    service_name := some ("auth-service"), nspace := none, deployment := none }

/-- A service whose reload method is not one of the recognized
strategies. -/
def svcU : Service :=
  { name := some ("legacy-api"), cert_path := some ("pki/issue/legacy"),
    common_name := none,
    reload_method := some ("carrier-pigeon"), reload_endpoint := none,
    service_name := none, nspace := none, deployment := none }

/-- Collaborators all succeed. -/
def envDemo : TaskEnv :=
  { issuanceLive := Except.ok (some [("certificate", "c1"), ("private_key", "k1")]),
    httpOk := true, sysOk := true, k8sOk := true, t0 := 0, t1 := 5 }

/-- Every collaborator call fails; the store GET/POST raise a connection
error. -/
def envStoreFail : TaskEnv :=
  { issuanceLive := Except.error ("ConnectionError"),
    httpOk := false, sysOk := false, k8sOk := false, t0 := 0, t1 := 1 }

/-- A concrete `datetime.fromisoformat` fragment: it parses exactly the
normalised form of the placeholder date used by `main`
(2026-02-15T00:00:00+00:00 is 1771113600 seconds since the epoch) and
rejects everything else. -/
def fromiso_demo : String → Option Int := fun s =>
  if s = "2026-02-15T00:00:00+00:00" then some 1771113600 else none

/-- Epoch seconds of 2025-10-01T00:00:00+00:00, a `now` at which the
placeholder expiry is 137 days away. -/
def now_demo : Int := 1759276800

/-! Helper lemmas shared by several claim theorems. -/

/-- The outcome built by `rotate_certificate` always carries
`service.get("name", "unknown")` as its service name. -/
theorem rotate_certificate_service (dry_run : Bool) (s : Service) (env : TaskEnv) :
    (rotate_certificate dry_run s env).1.service = s.name.getD ("unknown") := by
  simp only [rotate_certificate]
  repeat' split
  all_goals rfl

/-- The outcome built by `rotate_certificate` always carries the
difference of the two clock readings as its duration. -/
theorem rotate_certificate_duration (dry_run : Bool) (s : Service) (env : TaskEnv) :
    (rotate_certificate dry_run s env).1.duration = env.t1 - env.t0 := by
  simp only [rotate_certificate]
  repeat' split
  all_goals rfl

/-- One outcome is produced per selected service. -/
theorem main_pass_length (force dry_run : Bool) (fromisoformat : String → Option Int)
    (now lead : Int) (services : List Service) (env : Service → TaskEnv) :
    (main_pass force dry_run fromisoformat now lead services env).length
      = (select_services force fromisoformat now lead services).length := by
  simp [main_pass]

/-- The service names of the produced outcomes are exactly the names of
the selected services, in order. -/
theorem main_pass_services (force dry_run : Bool) (fromisoformat : String → Option Int)
    (now lead : Int) (services : List Service) (env : Service → TaskEnv) :
    (main_pass force dry_run fromisoformat now lead services env).map Outcome.service
      = (select_services force fromisoformat now lead services).map
          (fun s => s.name.getD ("unknown")) := by
  unfold main_pass
  rw [List.map_map]
  apply List.map_congr_left
  intro s _
  exact rotate_certificate_service dry_run s (env s)

/-- The simulated retrying send never performs more retries than its
`total` budget. -/
theorem send_with_retries_le (backoff_factor : Nat) (forcelist : List Nat)
    (resps : List SimResp) (total hist : Nat) :
    (send_with_retries backoff_factor forcelist resps total hist).retries ≤ total := by
  induction resps generalizing total hist with
  | nil => simp [send_with_retries]
  | cons r rest ih =>
      cases r with
      | conn =>
          cases total with
          | zero => simp [send_with_retries]
          | succ t =>
              simp only [send_with_retries]
              exact Nat.succ_le_succ (ih t (hist + 1))
      | status code =>
          cases total with
          | zero =>
              simp only [send_with_retries]
              split <;> simp
          | succ t =>
              by_cases h : forcelist.contains code <;>
                simp only [send_with_retries, h, if_true, if_false]
              · exact Nat.succ_le_succ (ih t (hist + 1))
              · simp

/-! Claim theorems. -/

/-- C3: per-service rotation yields status failed when issuance returns
a falsy certificate payload, success when issuance succeeds and the
dispatched reload succeeds, and partial when issuance succeeds but the
reload fails. -/
theorem C3_per_service_status (dry_run : Bool) (s : Service) (env : TaskEnv)
    (p : String) (hp : s.cert_path = some p) (cd : Option CertData)
    (hok : (request_new_certificate dry_run p env.issuanceLive).1 = Except.ok cd) :
    (truthy cd = false → (rotate_certificate dry_run s env).1.status = "failed")
    ∧ (truthy cd = true → (reload_service dry_run s env).1 = true →
        (rotate_certificate dry_run s env).1.status = "success")
    ∧ (truthy cd = true → (reload_service dry_run s env).1 = false →
        (rotate_certificate dry_run s env).1.status = "partial") := by
  simp only [rotate_certificate, hp, hok]
  refine ⟨?_, ?_, ?_⟩
  · intro ht; simp [ht]
  · intro ht hr; simp [ht, hr]
  · intro ht hr; simp [ht, hr]

/-- Witness for C3 at a concrete http service in dry-run mode. -/
theorem C3_per_service_status_witness :
    svcA.cert_path = some ("pki/issue/payments")
    ∧ (request_new_certificate true ("pki/issue/payments") envDemo.issuanceLive).1
        = Except.ok (some [("certificate", "fake_cert"), ("private_key", "fake_key")])
    ∧ (rotate_certificate true svcA envDemo).1.status = "success" := by
  refine ⟨rfl, rfl, ?_⟩
  exact (C3_per_service_status true svcA envDemo ("pki/issue/payments") rfl
    (some [("certificate", "fake_cert"), ("private_key", "fake_key")]) rfl).2.1 rfl rfl

/-- C4: an exception reaching the task boundary (a missing cert_path
key, or an exception escaping the live issuance call) is converted into
a failed outcome carrying the stringified error, and the pass always
yields one outcome per selected service. -/
theorem C4_exceptions_become_failed_outcomes (dry_run : Bool) (s : Service)
    (env : TaskEnv) :
    (s.cert_path = none →
      (rotate_certificate dry_run s env).1
        = { service := s.name.getD ("unknown"), status := "failed",
            error := some ("KeyError: cert_path"), duration := env.t1 - env.t0 })
    ∧ (∀ p e, s.cert_path = some p → dry_run = false →
        env.issuanceLive = Except.error e →
        (rotate_certificate dry_run s env).1
          = { service := s.name.getD ("unknown"), status := "failed",
              error := some e, duration := env.t1 - env.t0 })
    ∧ (∀ (force : Bool) (fromisoformat : String → Option Int) (now lead : Int)
        (services : List Service) (envs : Service → TaskEnv),
        (main_pass force dry_run fromisoformat now lead services envs).length
          = (select_services force fromisoformat now lead services).length) := by
  refine ⟨?_, ?_, ?_⟩
  · intro h; simp [rotate_certificate, h]
  · intro p e hp hd he
    simp [rotate_certificate, hp, hd, he, request_new_certificate]
  · intro force fromisoformat now lead services envs
    exact main_pass_length force dry_run fromisoformat now lead services envs

/-- Witness for C4: a live task whose issuance raises is reported as a
failed outcome with the stringified exception. -/
theorem C4_exceptions_become_failed_outcomes_witness :
    svcA.cert_path = some ("pki/issue/payments")
    ∧ envStoreFail.issuanceLive = Except.error ("ConnectionError")
    ∧ (rotate_certificate false svcA envStoreFail).1
        = { service := "payments-api", status := "failed",
            error := some ("ConnectionError"), duration := 1 } := by
  refine ⟨rfl, rfl, ?_⟩
  exact (C4_exceptions_become_failed_outcomes false svcA envStoreFail).2.1
    ("pki/issue/payments") ("ConnectionError") rfl rfl rfl

/-- C6: a malformed expiry timestamp makes days_until_expiry return 0,
which is within any non-negative rotation lead time, so the certificate
counts as rotation due and (with the placeholder date unparsable) every
service is selected. -/
theorem C6_malformed_expiry_is_due (fromisoformat : String → Option Int)
    (now : Int) (expiry_iso : String) (lead : Int)
    (hparse : fromisoformat
        (if expiry_iso.data.getLast? = some ('Z')
         then String.mk expiry_iso.data.dropLast ++ "+00:00"
         else expiry_iso) = none)
    (hlead : 0 ≤ lead) :
    days_until_expiry fromisoformat now expiry_iso = 0
    ∧ days_until_expiry fromisoformat now expiry_iso ≤ lead
    ∧ (∀ services : List Service,
        fromisoformat ("2026-02-15T00:00:00+00:00") = none →
        select_services false fromisoformat now lead services = services) := by
  have h0 : days_until_expiry fromisoformat now expiry_iso = 0 := by
    simp only [days_until_expiry]
    rw [hparse]
  refine ⟨h0, by rw [h0]; exact hlead, ?_⟩
  intro services hfake
  have hz : fake_expiry_date.data.getLast? = some ('Z') := by decide
  have hnorm : String.mk fake_expiry_date.data.dropLast ++ "+00:00"
      = "2026-02-15T00:00:00+00:00" := by decide
  have hdue : days_until_expiry fromisoformat now fake_expiry_date = 0 := by
    simp only [days_until_expiry, hz, if_true, hnorm]
    rw [hfake]
  simp only [select_services, if_false, Bool.false_eq_true, hdue]
  have : (decide ((0 : Int) ≤ lead)) = true := decide_eq_true hlead
  simp [this]

/-- Witness for C6 with a parser that rejects everything and the default
30-day lead time. -/
theorem C6_malformed_expiry_is_due_witness :
    days_until_expiry (fun _ => none) 0 ("not-a-timestamp") = 0
    ∧ days_until_expiry (fun _ => none) 0 ("not-a-timestamp") ≤ 30
    ∧ select_services false (fun _ => none) 0 30 [svcA] = [svcA] := by
  have h := C6_malformed_expiry_is_due (fun _ => none) 0 ("not-a-timestamp") 30
    rfl (by decide)
  exact ⟨h.1, h.2.1, h.2.2 [svcA] rfl⟩

/-- C9: a ServiceSpec with no reload_method field is dispatched exactly
like the http strategy (the source defaults the missing key to http),
not as a configuration error. -/
theorem C9_missing_reload_method_defaults_to_http (dry_run : Bool) (s : Service)
    (env : TaskEnv) (h : s.reload_method = none) :
    reload_service dry_run s env
      = reload_via_http dry_run s.reload_endpoint env.httpOk := by
  simp [reload_service, h]

/-- Witness for C9 at a concrete service lacking the reload_method
field. -/
theorem C9_missing_reload_method_defaults_to_http_witness :
    ({ svcA with reload_method := none } : Service).reload_method = none
    ∧ reload_service true { svcA with reload_method := none } envDemo
        = reload_via_http true
            ({ svcA with reload_method := none } : Service).reload_endpoint
            envDemo.httpOk :=
  ⟨rfl, C9_missing_reload_method_defaults_to_http true
    { svcA with reload_method := none } envDemo rfl⟩

/-- C10: every rotation call returns a record with the service name, a
status among success, partial and failed, a non-negative duration when
the clock does not step backwards, and an error detail exactly when the
status is not success. -/
theorem C10_outcome_wellformed (dry_run : Bool) (s : Service) (env : TaskEnv)
    (h : env.t0 ≤ env.t1) :
    (rotate_certificate dry_run s env).1.service = s.name.getD ("unknown")
    ∧ ((rotate_certificate dry_run s env).1.status = "success"
        ∨ (rotate_certificate dry_run s env).1.status = "partial"
        ∨ (rotate_certificate dry_run s env).1.status = "failed")
    ∧ 0 ≤ (rotate_certificate dry_run s env).1.duration
    ∧ ((rotate_certificate dry_run s env).1.status = "success"
        ↔ (rotate_certificate dry_run s env).1.error = none) := by
  refine ⟨rotate_certificate_service dry_run s env, ?_, ?_, ?_⟩
  · simp only [rotate_certificate]
    repeat' split
    all_goals simp
  · rw [rotate_certificate_duration]
    omega
  · simp only [rotate_certificate]
    repeat' split
    all_goals simp

/-- C1 counterexample: with the force flag, a batch of two services that
share a name yields two outcomes with equal serviceName (uniqueness
fails); without the force flag, a submitted service judged not due by
the selection check yields no outcome at all (the count is below N). -/
theorem C1_counterexample :
    ¬ ((main_pass true true fromiso_demo now_demo 30 [svcA, svcA]
          (fun _ => envDemo)).map Outcome.service).Nodup
    ∧ (main_pass false true fromiso_demo now_demo 30 [svcA]
          (fun _ => envDemo)).length = 0 := by
  decide

/-- C1 (amended): the results collected by a completed pass — in
whatever completion order `as_completed` delivers them, i.e. for every
permutation of the per-service outcomes — consist of exactly one
RotationOutcome per selected service: their serviceName multiset equals
the multiset of the selected specs' names (defaulting to unknown), their
count is the selected count (all submitted services when force is set),
and the serviceNames are unique whenever the selected names are. -/
theorem C1_one_outcome_per_selected (force dry_run : Bool)
    (fromisoformat : String → Option Int) (now lead : Int)
    (services : List Service) (env : Service → TaskEnv)
    (results : List Outcome)
    (hres : results.Perm
      (main_pass force dry_run fromisoformat now lead services env)) :
    (results.map Outcome.service).Perm
        ((select_services force fromisoformat now lead services).map
          (fun s => s.name.getD ("unknown")))
    ∧ results.length
        = (select_services force fromisoformat now lead services).length
    ∧ (force = true →
        select_services force fromisoformat now lead services = services)
    ∧ (((select_services force fromisoformat now lead services).map
          (fun s => s.name.getD ("unknown"))).Nodup →
        (results.map Outcome.service).Nodup) := by
  have hperm : (results.map Outcome.service).Perm
      ((select_services force fromisoformat now lead services).map
        (fun s => s.name.getD ("unknown"))) := by
    rw [← main_pass_services force dry_run fromisoformat now lead services env]
    exact hres.map Outcome.service
  refine ⟨hperm, ?_, ?_, ?_⟩
  · rw [hres.length_eq]
    exact main_pass_length force dry_run fromisoformat now lead services env
  · intro h
    simp [select_services, h]
  · intro h
    exact hperm.nodup_iff.mpr h

/-- Witness for C1 on a forced two-service batch with distinct names,
collected in a completion order that reverses submission order. -/
theorem C1_one_outcome_per_selected_witness :
    ((main_pass true true fromiso_demo now_demo 30 [svcA, svcB]
        (fun _ => envDemo)).reverse).Perm
      (main_pass true true fromiso_demo now_demo 30 [svcA, svcB]
        (fun _ => envDemo))
    ∧ (((main_pass true true fromiso_demo now_demo 30 [svcA, svcB]
        (fun _ => envDemo)).reverse).map Outcome.service).Perm
        ((select_services true fromiso_demo now_demo 30 [svcA, svcB]).map
          (fun s => s.name.getD ("unknown")))
    ∧ ((main_pass true true fromiso_demo now_demo 30 [svcA, svcB]
        (fun _ => envDemo)).reverse).length = 2
    ∧ (((main_pass true true fromiso_demo now_demo 30 [svcA, svcB]
        (fun _ => envDemo)).reverse).map Outcome.service).Nodup := by
  have h := C1_one_outcome_per_selected true true fromiso_demo now_demo 30
    [svcA, svcB] (fun _ => envDemo)
    ((main_pass true true fromiso_demo now_demo 30 [svcA, svcB]
      (fun _ => envDemo)).reverse)
    (List.reverse_perm _)
  refine ⟨List.reverse_perm _, h.1, ?_, h.2.2.2 (by decide)⟩
  rw [h.2.1]
  decide

/-- C2 counterexample: a service with an unrecognized reload method and
successful issuance ends with status partial and the generic
reload-failure detail, not with status failed and a configuration-error
detail. -/
theorem C2_counterexample :
    (rotate_certificate true svcU envDemo).1.status = "partial"
    ∧ ¬ (rotate_certificate true svcU envDemo).1.status = "failed"
    ∧ (rotate_certificate true svcU envDemo).1.error
        = some ("Certificate rotated but service reload failed") := by
  decide

/-- C2 (amended): for a service whose reload-method value is not one of
the recognized strategies, the dispatcher returns failure (the unknown
method is only logged) and the rotation outcome is never success: it is
partial, carrying the generic reload-failure detail, exactly when
issuance succeeded, and failed exactly when issuance failed. -/
theorem C2_unrecognized_method_never_success (dry_run : Bool) (s : Service)
    (env : TaskEnv)
    (h1 : s.reload_method.getD ("http") ≠ "http")
    (h2 : s.reload_method.getD ("http") ≠ "systemd")
    (h3 : s.reload_method.getD ("http") ≠ "kubernetes") :
    (reload_service dry_run s env).1 = false
    ∧ ¬ (rotate_certificate dry_run s env).1.status = "success"
    ∧ ((rotate_certificate dry_run s env).1.status = "partial"
        ↔ issuance_succeeded dry_run s env = true)
    ∧ ((rotate_certificate dry_run s env).1.status = "failed"
        ↔ issuance_succeeded dry_run s env = false)
    ∧ (issuance_succeeded dry_run s env = true →
        (rotate_certificate dry_run s env).1.error
          = some ("Certificate rotated but service reload failed")) := by
  have hr : reload_service dry_run s env = (false, []) := by
    simp [reload_service, h1, h2, h3]
  rcases hcp : s.cert_path with _ | p
  · simp [rotate_certificate, issuance_succeeded, hcp, hr]
  · rcases hreq : (request_new_certificate dry_run p env.issuanceLive).1 with e | cd
    · simp [rotate_certificate, issuance_succeeded, hcp, hreq, hr]
    · rcases ht : truthy cd with _ | _
      · simp [rotate_certificate, issuance_succeeded, hcp, hreq, ht, hr]
      · simp [rotate_certificate, issuance_succeeded, hcp, hreq, ht, hr]

/-- Witness for C2 at the concrete unrecognized-method service, whose
dry-run issuance succeeds. -/
theorem C2_unrecognized_method_never_success_witness :
    svcU.reload_method.getD ("http") = "carrier-pigeon"
    ∧ (reload_service true svcU envDemo).1 = false
    ∧ ¬ (rotate_certificate true svcU envDemo).1.status = "success"
    ∧ issuance_succeeded true svcU envDemo = true
    ∧ (rotate_certificate true svcU envDemo).1.status = "partial"
    ∧ (rotate_certificate true svcU envDemo).1.error
        = some ("Certificate rotated but service reload failed") := by
  have h := C2_unrecognized_method_never_success true svcU envDemo
    (by decide) (by decide) (by decide)
  exact ⟨rfl, h.1, h.2.1, rfl, h.2.2.1.mpr rfl, h.2.2.2.2 rfl⟩

/-- C5: in a non-force pass the selection loop evaluates only the
hard-coded placeholder expiry; at a now where that placeholder is 137
days away no service is selected and the pass over a service whose
store reads fail produces no outcome at all — the store is never read
during selection and a store-read failure is not recorded as a failed
outcome. -/
theorem C5_selection_never_reads_store :
    days_until_expiry fromiso_demo now_demo fake_expiry_date = 137
    ∧ select_services false fromiso_demo now_demo 30 [svcA] = []
    ∧ main_pass false false fromiso_demo now_demo 30 [svcA]
        (fun _ => envStoreFail) = [] := by
  decide

/-- C7 counterexample: with base delay 1 the simulated sequence
503, 503, 200 performs exactly 2 retries but sleeps only 2 in total
(urllib3 sleeps 0 before the first retry), refuting the claimed lower
bound of baseDelay + 2 * baseDelay = 3. -/
theorem C7_counterexample :
    (send_with_retries 1 status_forcelist
        [SimResp.status 503, SimResp.status 503, SimResp.status 200] 3 0).retries = 2
    ∧ (send_with_retries 1 status_forcelist
        [SimResp.status 503, SimResp.status 503, SimResp.status 200] 3 0).total_sleep = 2
    ∧ ¬ (1 + 2 * 1 ≤ (send_with_retries 1 status_forcelist
        [SimResp.status 503, SimResp.status 503, SimResp.status 200] 3
        0).total_sleep) := by
  decide

/-- C7 (amended): 503, 503, 200 with base delay d causes exactly 2
retries and a total backoff wait of min(DEFAULT_BACKOFF_MAX, 2 * d); a
404 causes zero retries; a status outside the forcelist is returned
immediately with no retry; and at most 3 retries ever occur under the
configured budget. -/
theorem C7_retry_policy (d : Nat) :
    (send_with_retries d status_forcelist
        [SimResp.status 503, SimResp.status 503, SimResp.status 200] 3 0).retries = 2
    ∧ (send_with_retries d status_forcelist
        [SimResp.status 503, SimResp.status 503, SimResp.status 200] 3 0).total_sleep
        = min DEFAULT_BACKOFF_MAX (d * 2)
    ∧ (send_with_retries d status_forcelist
        [SimResp.status 503, SimResp.status 503, SimResp.status 200] 3 0).result
        = some 200
    ∧ send_with_retries d status_forcelist [SimResp.status 404] 3 0
        = { retries := 0, total_sleep := 0, result := some 404 }
    ∧ (∀ code rest total hist, status_forcelist.contains code = false →
        send_with_retries d status_forcelist (SimResp.status code :: rest) total hist
          = { retries := 0, total_sleep := 0, result := some code })
    ∧ (∀ resps hist,
        (send_with_retries d status_forcelist resps 3 hist).retries ≤ 3) := by
  refine ⟨?_, ?_, ?_, ?_, ?_, ?_⟩
  · simp [send_with_retries, status_forcelist, get_backoff_time]
  · simp [send_with_retries, status_forcelist, get_backoff_time, DEFAULT_BACKOFF_MAX]
  · simp [send_with_retries, status_forcelist, get_backoff_time]
  · simp [send_with_retries, status_forcelist, get_backoff_time]
  · intro code rest total hist hcode
    simp only [send_with_retries, hcode, Bool.false_eq_true, if_false]
  · intro resps hist
    exact send_with_retries_le d status_forcelist resps 3 hist

/-- Witness for C7 with base delay 1 and a non-retriable 404 head. -/
theorem C7_retry_policy_witness :
    status_forcelist.contains 404 = false
    ∧ send_with_retries 1 status_forcelist [SimResp.status 404, SimResp.conn] 3 0
        = { retries := 0, total_sleep := 0, result := some 404 }
    ∧ (send_with_retries 1 status_forcelist
        [SimResp.status 503, SimResp.status 503, SimResp.status 200] 3 0).total_sleep
        = min DEFAULT_BACKOFF_MAX (1 * 2) := by
  have h := C7_retry_policy 1
  exact ⟨by decide, h.2.2.2.2.1 404 [SimResp.conn] 3 0 (by decide), h.2.1⟩

/-- C8: in dry-run mode no call crosses the collaborator boundary (the
effect trace of a whole rotation task is empty) and every service with
a recognized (or defaulted) reload method and a present cert_path ends
with status success. -/
theorem C8_dry_run_no_boundary_calls (s : Service) (env : TaskEnv) :
    (reload_service true s env).2 = []
    ∧ (rotate_certificate true s env).2 = []
    ∧ (∀ p live, (request_new_certificate true p live).2 = [])
    ∧ (s.cert_path ≠ none →
        (s.reload_method.getD ("http") = "http"
          ∨ s.reload_method.getD ("http") = "systemd"
          ∨ s.reload_method.getD ("http") = "kubernetes") →
        (rotate_certificate true s env).1.status = "success") := by
  have hrel : (reload_service true s env).2 = [] := by
    simp only [reload_service, reload_via_http, reload_via_systemd,
      reload_via_kubernetes]
    repeat' split
    all_goals simp_all
  refine ⟨hrel, ?_, fun p live => rfl, ?_⟩
  · simp only [rotate_certificate]
    repeat' split
    all_goals simp_all [request_new_certificate, truthy]
  · intro hp hm
    obtain ⟨p, hp⟩ := Option.ne_none_iff_exists.mp hp
    have hrel1 : (reload_service true s env).1 = true := by
      rcases hm with h | h | h <;>
        simp [reload_service, h, reload_via_http, reload_via_systemd,
          reload_via_kubernetes]
    simp [rotate_certificate, ← hp, request_new_certificate, truthy, hrel1]

/-- Witness for C8 at a concrete http service. -/
theorem C8_dry_run_no_boundary_calls_witness :
    (rotate_certificate true svcA envStoreFail).2 = []
    ∧ svcA.cert_path ≠ none
    ∧ svcA.reload_method.getD ("http") = "http"
    ∧ (rotate_certificate true svcA envStoreFail).1.status = "success" := by
  have h := C8_dry_run_no_boundary_calls svcA envStoreFail
  exact ⟨h.2.1, by decide, rfl, h.2.2.2 (by decide) (Or.inl rfl)⟩

/-- Witness for C10 at a concrete service with a 5-second task. -/
theorem C10_outcome_wellformed_witness :
    envDemo.t0 ≤ envDemo.t1
    ∧ ((rotate_certificate true svcA envDemo).1.status = "success"
        ∨ (rotate_certificate true svcA envDemo).1.status = "partial"
        ∨ (rotate_certificate true svcA envDemo).1.status = "failed")
    ∧ 0 ≤ (rotate_certificate true svcA envDemo).1.duration :=
  ⟨by decide,
    (C10_outcome_wellformed true svcA envDemo (by decide)).2.1,
    (C10_outcome_wellformed true svcA envDemo (by decide)).2.2.1⟩

end CertRotation
